import Mathlib

/-!
Verification of the contact-resolution and transcript-assembly pipeline of the
iMessage query server (`imessage_query_server.py`).

The source program is shallowly embedded below:

* The contacts map (`contacts_map.json` loaded into a Python dict) is modelled
  as an insertion-ordered association list `ContactsMap`; Python dicts preserve
  insertion order, and both dict membership and dict iteration are modelled on
  that list.
* The `phonenumbers` library is an external collaborator; its three primitives
  used by the program (`parse` with region "US", `is_valid_number`,
  `format_number(..., E164)`) are abstracted as a `PhoneLib` record.
  `parse` raising `NumberParseException` is modelled by `Option`.
* Calendar dates are modelled at day precision as rata-die day numbers
  (`rataDie`), which order exactly like Python `datetime` values truncated to
  midnight.  `datetime.strptime(s[:10], "%Y-%m-%d")` is modelled by
  `parseMsgDate`; the `start_date`/`end_date` strings handed to
  `datetime.fromisoformat` are parsed once up front by `parseWindow` (in the
  source they are re-parsed, with the same constant result, on every loop
  iteration).
* Exceptions escaping `get_chat_transcript` are modelled by `Except QueryError`.
* Filesystem and environment state (`contacts_map.json` on disk, the
  `SQLITE_DB_PATH` environment variable, `Path.home()`, `DB_PATH.exists()`,
  `datetime.now()` and the message-history provider) are packaged in `Env`.
-/

namespace IMessageQuery

/-- One value of the contacts map: `{"phones": [...], "emails": [...]}`.
`phones` models `info.get("phones", [])`, so a JSON entry lacking the key is
represented by an empty list. -/
structure ContactInfo where
  phones : List String
  emails : List String
deriving Repr, DecidableEq

/-- The in-memory `contacts_map` dict, as an insertion-ordered association
list with (as in any Python dict) pairwise distinct keys. -/
abbrev ContactsMap := List (String × ContactInfo)

/-- Python dict lookup `contacts_map[contact_name]` guarded by
`contact_name in contacts_map`. -/
def mapGet (cm : ContactsMap) (k : String) : Option ContactInfo :=
  (cm.find? (fun p => p.1 == k)).map Prod.snd

/-- `str.lower()` at the character level (ASCII case mapping, which is also
what `Char.toLower` implements). -/
def strLower (s : String) : String :=
  String.mk (s.data.map Char.toLower)

/-- Python substring test `needle in hay` on strings: `needle` occurs
contiguously in `hay` (the empty string occurs in every string). -/
def strContains (hay needle : String) : Bool :=
  (List.range (hay.data.length + 1)).any
    (fun i => ((hay.data.drop i).take needle.data.length) == needle.data)

/-- State of `contacts_map.json` on disk: absent, present but not valid JSON
(`json.load` raises), or present and well formed. -/
inductive DirectoryFile where
  | missing
  | malformed
  | ok (cm : ContactsMap)

/-- `load_contacts_map` (lines 68-79): on a well-formed file the global map is
replaced by the file contents; when the file is missing only a warning is
logged; any exception (malformed file) is caught and logged.  In every case
the function returns to its caller without raising, which the total return
type records; `current` is the prior value of the global `contacts_map`. -/
def load_contacts_map (file : DirectoryFile) (current : ContactsMap) : ContactsMap :=
  match file with
  | .ok cm => cm
  | .missing => current
  | .malformed => current

/-- The case-insensitive partial-match loop of `lookup_contact_numbers`
(lines 152-157): scan entries in stored order and return the phones of the
first entry whose lowered name contains the lowered query — with no condition
on whether that phone list is empty. -/
def findSubstringMatch (cm : ContactsMap) (lower : String) : Option (List String) :=
  match cm with
  | [] => none
  | (name, info) :: rest =>
    if strContains (strLower name) lower then some info.phones
    else findSubstringMatch rest lower

/-- `lookup_contact_numbers` (lines 136-158): lazily reload the map if it is
empty, then try exact dict lookup, then the case-insensitive substring scan. -/
def lookup_contact_numbers (file : DirectoryFile) (cm0 : ContactsMap)
    (contact_name : String) : Option (List String) :=
  let cm := if cm0.isEmpty then load_contacts_map file cm0 else cm0
  match mapGet cm contact_name with
  | some info => some info.phones
  | none => findSubstringMatch cm (strLower contact_name)

/-! ## Calendar dates at day precision -/

/-- Gregorian leap-year test. -/
def isLeapYear (y : Nat) : Bool :=
  y % 4 == 0 && (y % 100 != 0 || y % 400 == 0)

/-- Length of month `m` (1-12) in year `y`. -/
def daysInMonth (y m : Nat) : Nat :=
  if m == 2 then (if isLeapYear y then 29 else 28)
  else if m == 4 || m == 6 || m == 9 || m == 11 then 30
  else 31

/-- Days in year `y` strictly before month `m`. -/
def daysBeforeMonth (y m : Nat) : Nat :=
  ((List.range (m - 1)).map (fun i => daysInMonth y (i + 1))).sum

/-- Rata-die day number of the calendar date `y-m-d` (day 1 = 0001-01-01).
Chronological order on valid dates is `<` on day numbers, which is exactly how
Python `datetime` values at midnight compare. -/
def rataDie (y m d : Nat) : Nat :=
  365 * (y - 1) + (y - 1) / 4 - (y - 1) / 100 + (y - 1) / 400 + daysBeforeMonth y m + d

/-- Split a character list on a separator character (the `str.split("-")`
shape that `"%Y-%m-%d"` parsing induces). -/
def splitOnChar (sep : Char) : List Char → List (List Char)
  | [] => [[]]
  | c :: cs =>
    if c == sep then [] :: splitOnChar sep cs
    else
      match splitOnChar sep cs with
      | [] => [[c]]
      | h :: t => (c :: h) :: t

/-- Read a non-empty all-digit character list as a decimal number. -/
def digitsToNat? (cs : List Char) : Option Nat :=
  if cs.isEmpty || !cs.all Char.isDigit then none
  else some (cs.foldl (fun acc c => 10 * acc + (c.toNat - 48)) 0)

/-- Parse an ISO `YYYY-MM-DD` character list to a calendar-date triple,
checking the month and day ranges that `datetime` enforces; `none` models a
raised `ValueError`. -/
def parseDateTriple (cs : List Char) : Option (Nat × Nat × Nat) :=
  match splitOnChar '-' cs with
  | [ys, ms, ds] =>
    match digitsToNat? ys, digitsToNat? ms, digitsToNat? ds with
    | some y, some m, some d =>
      if 1 ≤ m && m ≤ 12 && 1 ≤ d && d ≤ daysInMonth y m then some (y, m, d)
      else none
    | _, _, _ => none
  | _ => none

/-- `datetime.strptime(msg.date[:10], "%Y-%m-%d")` (line 220): truncate the
stored timestamp to its leading date portion and parse it, as a day number. -/
def parseMsgDate (s : String) : Option Nat :=
  (parseDateTriple (s.data.take 10)).map (fun t => rataDie t.1 t.2.1 t.2.2)

/-- `datetime.fromisoformat` applied to a `start_date`/`end_date` argument,
at the calendar-date precision of the tool's input contract. -/
def parseWindowDate (s : String) : Option Nat :=
  (parseDateTriple s.data).map (fun t => rataDie t.1 t.2.1 t.2.2)

/-- Python truthiness of an optional string argument: `None` and `""` are
falsy (`if not start_date ...`). -/
def strTruthy (s : Option String) : Bool :=
  match s with
  | none => false
  | some t => !(t == "")

/-! ## The phonenumbers library interface -/

/-- The three primitives of the external `phonenumbers` library used by the
program.  `parseUS s` models `phonenumbers.parse(s, "US")`, returning `none`
when `NumberParseException` is raised; `isValidNumber` models
`phonenumbers.is_valid_number`; `formatE164` models
`phonenumbers.format_number(·, PhoneNumberFormat.E164)`.  The parsed-number
object is represented by an abstract `String` code. -/
structure PhoneLib where
  parseUS : String → Option String
  isValidNumber : String → Bool
  formatE164 : String → String

/-! ## Errors and results -/

/-- The exceptions `get_chat_transcript` can raise, each carrying the data
interpolated into its message. -/
inductive QueryError where
  /-- `ValueError("Could not find contact ... in contacts map")` (line 184). -/
  | contactNotFound (contact : String)
  /-- `ValueError("Could not find contact ... in contacts map and input is
  not a valid phone number")` (line 181). -/
  | contactNotFoundInvalidPhone (contact : String)
  /-- `ValueError("Invalid phone number: ...")` (line 195). -/
  | invalidPhoneNumber (phone : String)
  /-- `ValueError("Invalid phone number format: ...")` (line 199). -/
  | invalidPhoneFormat (phone : String)
  /-- `FileNotFoundError("Messages database not found at: ...")` (line 202). -/
  | storeUnavailable (path : String)
  /-- `ValueError` from `datetime.strptime` on a malformed stored timestamp. -/
  | badDate (s : String)
  /-- `ValueError` from `datetime.fromisoformat` on a malformed window bound. -/
  | badWindowDate (s : String)
deriving Repr, DecidableEq

/-- One shaped attachment dict (lines 238-243). -/
structure AttachmentRecord where
  mime_type : Option String
  filename : Option String
  file_path : Option String
  is_missing : Bool
deriving Repr, DecidableEq

/-- A raw attachment object from the provider; `Option` fields model the
`hasattr` probes (a `none` field is one the provider does not report). -/
structure Attachment where
  mime_type : Option String
  filename : Option String
  original_path : Option String
  missing : Option Bool
deriving Repr, DecidableEq

/-- A raw message from `messages.message_list`: `text` may be `None`,
`date` is the provider's timestamp string. -/
structure RawMessage where
  text : Option String
  date : String
  is_from_me : Bool
  attachments : List Attachment
deriving Repr, DecidableEq

/-- One shaped message dict (lines 232-245). -/
structure TranscriptRecord where
  text : String
  date : String
  is_from_me : Bool
  has_attachments : Bool
  attachments : List AttachmentRecord
deriving Repr, DecidableEq

/-- The value returned by `get_chat_transcript` (lines 247-250). -/
structure TranscriptResult where
  messages : List TranscriptRecord
  total_count : Nat
deriving Repr, DecidableEq

/-- Decidable equality for `Except` values, so concrete runs of the
pipeline can be checked by evaluation. -/
instance {ε α : Type} [DecidableEq ε] [DecidableEq α] : DecidableEq (Except ε α) :=
  fun a b =>
  match a, b with
  | .error x, .error y =>
    if h : x = y then isTrue (congrArg Except.error h)
    else isFalse (fun he => h (Except.error.inj he))
  | .ok x, .ok y =>
    if h : x = y then isTrue (congrArg Except.ok h)
    else isFalse (fun he => h (Except.ok.inj he))
  | .error _, .ok _ => isFalse (fun he => Except.noConfusion he)
  | .ok _, .error _ => isFalse (fun he => Except.noConfusion he)

/-- Process environment of one call: the directory file and the in-memory
map, the phone library, `SQLITE_DB_PATH`, `Path.home()`, whether
`DB_PATH.exists()`, today's date (day number of `datetime.now()`), and the
message-history provider (`db.Messages(...).message_list` keyed by the phone
identifier). -/
structure Env where
  file : DirectoryFile
  contacts : ContactsMap
  phone : PhoneLib
  sqliteDbPathEnv : Option String
  homeDir : String
  dbExists : Bool
  today : Nat
  fetch : String → List RawMessage

/-- `DEFAULT_DB_PATH` (line 133). -/
def DEFAULT_DB_PATH (home : String) : String :=
  home ++ "/Library/Messages/chat.db"

/-- `DB_PATH = Path(os.environ.get('SQLITE_DB_PATH', DEFAULT_DB_PATH))`
(line 134). -/
def DB_PATH (env : Env) : String :=
  match env.sqliteDbPathEnv with
  | some p => p
  | none => DEFAULT_DB_PATH env.homeDir

/-! ## The orchestrator `get_chat_transcript`, stage by stage -/

/-- The raw-phone fallback branch (lines 173-184): parse the contact string
itself as a US-region phone number; a valid number yields the singleton list
of its E.164 form, an invalid one or a parse exception raises. -/
def rawPhoneFallback (pl : PhoneLib) (contact : String) : Except QueryError (List String) :=
  match pl.parseUS contact with
  | some parsed =>
    if pl.isValidNumber parsed then .ok [pl.formatE164 parsed]
    else .error (.contactNotFoundInvalidPhone contact)
  | none => .error (.contactNotFound contact)

/-- Lines 170-184: `contact_numbers = lookup_contact_numbers(contact)`
followed by `if not contact_numbers:`, so both `None` and an empty phone list
fall through to the raw-phone branch. -/
def resolveNumbers (env : Env) (contact : String) : Except QueryError (List String) :=
  match lookup_contact_numbers env.file env.contacts contact with
  | some ns => if ns.isEmpty then rawPhoneFallback env.phone contact else .ok ns
  | none => rawPhoneFallback env.phone contact

/-- Lines 192-199: re-parse and validate one phone number and format it to
E.164.  The `ValueError` raised on an invalid number is not caught by the
surrounding `except NumberParseException` and propagates. -/
def normalizePhone (pl : PhoneLib) (phone : String) : Except QueryError String :=
  match pl.parseUS phone with
  | some parsed =>
    if pl.isValidNumber parsed then .ok (pl.formatE164 parsed)
    else .error (.invalidPhoneNumber phone)
  | none => .error (.invalidPhoneFormat phone)

/-- Lines 210-215 plus the window parsing of lines 222-228: when both bounds
are falsy the window defaults to the last 7 days
(`start_dt = datetime.now() - timedelta(days=7)`), otherwise each present
bound string is parsed; in the source the formatted default strings and the
caller-supplied strings are (re-)parsed inside the message loop with a
constant result, modelled here by parsing once up front. -/
def parseWindow (today : Nat) (sd ed : Option String) :
    Except QueryError (Option Nat × Option Nat) :=
  if !strTruthy sd && !strTruthy ed then
    .ok (some (today - 7), some today)
  else
    match (if strTruthy sd then
             match parseWindowDate (sd.getD "") with
             | some n => Except.ok (some n)
             | none => Except.error (QueryError.badWindowDate (sd.getD ""))
           else Except.ok none : Except QueryError (Option Nat)) with
    | .error e => .error e
    | .ok ws =>
      match (if strTruthy ed then
               match parseWindowDate (ed.getD "") with
               | some n => Except.ok (some n)
               | none => Except.error (QueryError.badWindowDate (ed.getD ""))
             else Except.ok none : Except QueryError (Option Nat)) with
      | .error e => .error e
      | .ok we => .ok (ws, we)

/-- Shape one attachment (lines 238-243); an unreported `missing` flag
defaults to `False`. -/
def shapeAttachment (att : Attachment) : AttachmentRecord :=
  { mime_type := att.mime_type
    filename := att.filename
    file_path := att.original_path
    is_missing := att.missing.getD false }

/-- Shape one retained message (lines 232-245). `text` mirrors
`str(msg.text) if msg.text else ""` (both `None` and `""` are falsy);
`has_attachments` mirrors `bool(msg.attachments)`; the attachment
comprehension's `isinstance(att, object)` guard is always true. -/
def shapeMessage (msg : RawMessage) : TranscriptRecord :=
  { text := match msg.text with
            | some t => if t == "" then "" else t
            | none => ""
    date := msg.date
    is_from_me := msg.is_from_me
    has_attachments := !msg.attachments.isEmpty
    attachments := if msg.attachments.isEmpty then []
                   else msg.attachments.map shapeAttachment }

/-- The filtering-and-shaping loop over `messages.message_list`
(lines 217-245): parse each message's day, `continue` when it falls before
`start_dt` or after `end_dt`, otherwise append the shaped dict. -/
def processMessages (win : Option Nat × Option Nat) :
    List RawMessage → Except QueryError (List TranscriptRecord)
  | [] => .ok []
  | msg :: rest =>
    match parseMsgDate msg.date with
    | none => .error (.badDate msg.date)
    | some msg_day =>
      if (match win.1 with | some s => decide (msg_day < s) | none => false) then
        processMessages win rest
      else if (match win.2 with | some e => decide (e < msg_day) | none => false) then
        processMessages win rest
      else
        match processMessages win rest with
        | .error e => .error e
        | .ok recs => .ok (shapeMessage msg :: recs)

/-- Lines 201-250, from the store-existence check onward: fail when the
database path does not exist, otherwise fetch the history for the (already
canonical) phone identifier, resolve the window, run the filter-shape loop
and return the records with their count. -/
def afterFetch (env : Env) (phone_number : String) (sd ed : Option String) :
    Except QueryError TranscriptResult :=
  if !env.dbExists then .error (.storeUnavailable (DB_PATH env))
  else
    let msgs := env.fetch phone_number
    match parseWindow env.today sd ed with
    | .error e => .error e
    | .ok win =>
      match processMessages win msgs with
      | .error e => .error e
      | .ok recs => .ok { messages := recs, total_count := recs.length }

/-- `get_chat_transcript` (lines 162-250): resolve the contact, normalize
the first resolved number (`contact_numbers[0]`; the resolved list is never
empty on success), then check the store, fetch, filter and shape. -/
def get_chat_transcript (env : Env) (contact : String) (sd ed : Option String) :
    Except QueryError TranscriptResult :=
  match resolveNumbers env contact with
  | .error e => .error e
  | .ok contact_numbers =>
    match normalizePhone env.phone (contact_numbers.headD "") with
    | .error e => .error e
    | .ok phone_number => afterFetch env phone_number sd ed

/-- The pipeline with the directory stage cut out: resolution straight from
raw-phone parsing.  Used to state that a malformed directory degrades every
call to phone-number-only resolution. -/
def phoneOnlyTranscript (env : Env) (contact : String) (sd ed : Option String) :
    Except QueryError TranscriptResult :=
  match rawPhoneFallback env.phone contact with
  | .error e => .error e
  | .ok contact_numbers =>
    match normalizePhone env.phone (contact_numbers.headD "") with
    | .error e => .error e
    | .ok phone_number => afterFetch env phone_number sd ed

/-! ## Derived specification vocabulary -/

/-- Day-level retention predicate of the window: at least `start` when set,
at most `end` when set. -/
def dayKeep (win : Option Nat × Option Nat) (d : Nat) : Bool :=
  (match win.1 with | some s => decide (s ≤ d) | none => true) &&
  (match win.2 with | some e => decide (d ≤ e) | none => true)

/-- Retention predicate on a raw message: its parsed day is inside the
window. -/
def keepMsg (win : Option Nat × Option Nat) (m : RawMessage) : Bool :=
  match parseMsgDate m.date with
  | some d => dayKeep win d
  | none => false

/-- The calendar days inside the inclusive window `[s, e]`. -/
def daysInWindow (s e : Nat) : List Nat :=
  List.range' s (e + 1 - s)

/-- Modelled from the spec (section 4.1, step 2): the substring scan as the
specification describes it, in which an entry additionally needs at least one
phone to win and an empty-phones name match does not stop the scan. -/
def specSubstringScan (cm : ContactsMap) (lower : String) : Option (List String) :=
  match cm with
  | [] => none
  | (name, info) :: rest =>
    if strContains (strLower name) lower && !info.phones.isEmpty then some info.phones
    else specSubstringScan rest lower

/-! ## A concrete model instance of the phone library

A small executable stand-in for `phonenumbers` restricted to NANP-style
numbers, used to instantiate theorems at concrete inputs: parsing collects the
digits of the input, a number is valid when it is 10 digits or 11 digits led
by `1`, and E.164 formatting prepends the country code and `+`. -/

/-- Toy `parse(s, "US")`: the digit string of `s`, failing on digit-free
input. -/
def toyParse (s : String) : Option String :=
  let ds := s.data.filter Char.isDigit
  if ds.isEmpty then none else some (String.mk ds)

/-- Toy validity: all digits, and NANP length with optional leading country
code `1`. -/
def toyValid (n : String) : Bool :=
  n.data.all Char.isDigit &&
    (n.data.length == 10 || (n.data.length == 11 && n.data.headD ' ' == '1'))

/-- Toy E.164 formatting. -/
def toyFormat (n : String) : String :=
  if n.data.length == 10 then "+1" ++ n else "+" ++ n

/-- The toy phone library bundle. -/
def toyPhoneLib : PhoneLib :=
  { parseUS := toyParse, isValidNumber := toyValid, formatE164 := toyFormat }

/-- A one-entry directory used by concrete instantiations. -/
def witnessContacts : ContactsMap :=
  [("Jane Doe", { phones := ["+15551230000"], emails := [] })]

/-- A concrete environment used by concrete instantiations. -/
def envW : Env :=
  { file := .ok witnessContacts
    contacts := witnessContacts
    phone := toyPhoneLib
    sqliteDbPathEnv := none
    homeDir := "/Users/eric"
    dbExists := true
    today := rataDie 2024 1 10
    fetch := fun _ => [] }

/-- A directory whose first substring match for "ali" is an email-only entry
(the exporter keeps contacts that have an email but no phone). -/
def C1cm : ContactsMap :=
  [("Alice Smith", { phones := [], emails := ["alice@example.com"] }),
   ("Alina Jones", { phones := ["+15551230000"], emails := [] })]

/-- Concrete environment with no directory at all. -/
def envNF : Env :=
  { envW with file := .missing, contacts := [] }

/-- Concrete environment whose message store is absent. -/
def envDB : Env :=
  { envW with dbExists := false }

/-- Concrete environment whose directory file is malformed. -/
def envM : Env :=
  { envW with file := .malformed, contacts := [] }

/-- Two concrete raw messages used to instantiate the filter theorems. -/
def msgsW : List RawMessage :=
  [{ text := some "hi", date := "2024-01-05 10:00:00", is_from_me := false,
     attachments := [] },
   { text := none, date := "2024-01-02 09:00:00", is_from_me := true,
     attachments := [{ mime_type := some "image/png", filename := some "a.png",
                       original_path := none, missing := none }] }]

/-! ## Helper lemmas -/

theorem mapGet_eq_none (cm : ContactsMap) (k : String)
    (h : ∀ p ∈ cm, p.1 ≠ k) : mapGet cm k = none := by
  have hf : cm.find? (fun p => p.1 == k) = none :=
    List.find?_eq_none.mpr (fun x hx => by simpa using h x hx)
  unfold mapGet
  rw [hf]
  rfl

theorem strContains_empty (s : String) : strContains s "" = true := by
  unfold strContains
  rw [List.any_eq_true]
  exact ⟨0, List.mem_range.mpr (Nat.succ_pos _), rfl⟩

theorem findSubstringMatch_first (pre suf : ContactsMap) (name : String)
    (info : ContactInfo) (lower : String)
    (hpre : ∀ p ∈ pre, strContains (strLower p.1) lower = false)
    (hmatch : strContains (strLower name) lower = true) :
    findSubstringMatch (pre ++ (name, info) :: suf) lower = some info.phones := by
  induction pre with
  | nil => simp [findSubstringMatch, hmatch]
  | cons p ps ih =>
    obtain ⟨pn, pi⟩ := p
    have h1 : strContains (strLower pn) lower = false := hpre (pn, pi) (by simp)
    simpa [findSubstringMatch, h1] using
      ih (fun q hq => hpre q (List.mem_cons_of_mem _ hq))

theorem dayKeep_eq_not_skips (win : Option Nat × Option Nat) (d : Nat) :
    dayKeep win d =
      (!(match win.1 with | some s => decide (d < s) | none => false) &&
       !(match win.2 with | some e => decide (e < d) | none => false)) := by
  obtain ⟨w1, w2⟩ := win
  have e1 : ∀ a b : Nat, decide (a ≤ b) = !decide (b < a) := by
    intro a b
    rw [← decide_not]
    exact decide_eq_decide.mpr (by omega)
  cases w1 with
  | none =>
    cases w2 with
    | none => rfl
    | some e =>
      simp only [dayKeep]
      rw [e1 d e]
      rfl
  | some s =>
    cases w2 with
    | none =>
      simp only [dayKeep]
      rw [e1 s d]
      rfl
    | some e =>
      simp only [dayKeep]
      rw [e1 s d, e1 d e]

theorem processMessages_eq_filter_map (win : Option Nat × Option Nat)
    (msgs : List RawMessage)
    (hparse : ∀ m ∈ msgs, (parseMsgDate m.date).isSome) :
    processMessages win msgs = .ok ((msgs.filter (keepMsg win)).map shapeMessage) := by
  induction msgs with
  | nil => rfl
  | cons msg rest ih =>
    have hm := hparse msg (List.mem_cons_self _ _)
    obtain ⟨d, hd⟩ := Option.isSome_iff_exists.mp hm
    have ihr := ih (fun m hmem => hparse m (List.mem_cons_of_mem _ hmem))
    have hkeep : keepMsg win msg = dayKeep win d := by
      unfold keepMsg
      rw [hd]
    cases h1 : (match win.1 with | some s => decide (d < s) | none => false) with
    | true =>
      have hk : keepMsg win msg = false := by
        rw [hkeep, dayKeep_eq_not_skips, h1]
        rfl
      simp only [processMessages, hd, h1, if_true, List.filter_cons, hk,
        Bool.false_eq_true, if_false]
      exact ihr
    | false =>
      cases h2 : (match win.2 with | some e => decide (e < d) | none => false) with
      | true =>
        have hk : keepMsg win msg = false := by
          rw [hkeep, dayKeep_eq_not_skips, h1, h2]
          rfl
        simp only [processMessages, hd, h1, h2, List.filter_cons, hk,
          Bool.false_eq_true, if_false, if_true]
        exact ihr
      | false =>
        have hk : keepMsg win msg = true := by
          rw [hkeep, dayKeep_eq_not_skips, h1, h2]
          rfl
        simp only [processMessages, hd, h1, h2, List.filter_cons, hk,
          Bool.false_eq_true, if_false, if_true, ihr]
        rfl

theorem normalizePhone_ok (pl : PhoneLib) (s r : String)
    (h : normalizePhone pl s = .ok r) :
    ∃ n, pl.parseUS s = some n ∧ pl.isValidNumber n = true ∧ r = pl.formatE164 n := by
  unfold normalizePhone at h
  cases hp : pl.parseUS s with
  | none =>
    simp only [hp] at h
    exact Except.noConfusion h
  | some n =>
    simp only [hp] at h
    by_cases hv : pl.isValidNumber n = true
    · rw [if_pos hv] at h
      exact ⟨n, rfl, hv, (Except.ok.inj h).symm⟩
    · rw [if_neg hv] at h
      exact Except.noConfusion h

theorem resolveNumbers_of_lookup_none (env : Env) (contact : String)
    (h : lookup_contact_numbers env.file env.contacts contact = none) :
    resolveNumbers env contact = rawPhoneFallback env.phone contact := by
  unfold resolveNumbers
  rw [h]

theorem get_chat_transcript_of_resolve_error (env : Env) (contact : String)
    (sd ed : Option String) (e : QueryError)
    (h : resolveNumbers env contact = .error e) :
    get_chat_transcript env contact sd ed = .error e := by
  unfold get_chat_transcript
  rw [h]

theorem get_chat_transcript_ok (env : Env) (contact : String)
    (sd ed : Option String) (res : TranscriptResult)
    (h : get_chat_transcript env contact sd ed = .ok res) :
    ∃ ns phone, resolveNumbers env contact = .ok ns ∧
      normalizePhone env.phone (ns.headD "") = .ok phone ∧
      afterFetch env phone sd ed = .ok res := by
  unfold get_chat_transcript at h
  revert h
  cases hres : resolveNumbers env contact with
  | error e =>
    intro h
    exact Except.noConfusion h
  | ok ns =>
    intro h
    replace h : (match normalizePhone env.phone (ns.headD "") with
                 | Except.error e => Except.error e
                 | Except.ok phone_number => afterFetch env phone_number sd ed) =
        Except.ok res := h
    cases hnorm : normalizePhone env.phone (ns.headD "") with
    | error e =>
      rw [hnorm] at h
      exact Except.noConfusion h
    | ok phone =>
      rw [hnorm] at h
      exact ⟨ns, phone, rfl, hnorm, h⟩

theorem afterFetch_ok (env : Env) (phone : String) (sd ed : Option String)
    (res : TranscriptResult) (h : afterFetch env phone sd ed = .ok res) :
    res.total_count = res.messages.length := by
  unfold afterFetch at h
  cases hdb : env.dbExists with
  | false =>
    rw [hdb] at h
    exact Except.noConfusion h
  | true =>
    rw [hdb] at h
    replace h : (match parseWindow env.today sd ed with
                 | Except.error e => Except.error e
                 | Except.ok win =>
                   match processMessages win (env.fetch phone) with
                   | Except.error e => Except.error e
                   | Except.ok recs =>
                     Except.ok { messages := recs, total_count := recs.length }) =
        Except.ok res := h
    cases hwin : parseWindow env.today sd ed with
    | error e =>
      rw [hwin] at h
      exact Except.noConfusion h
    | ok win =>
      rw [hwin] at h
      replace h : (match processMessages win (env.fetch phone) with
                   | Except.error e => Except.error e
                   | Except.ok recs =>
                     Except.ok { messages := recs, total_count := recs.length }) =
          Except.ok res := h
      cases hpm : processMessages win (env.fetch phone) with
      | error e =>
        rw [hpm] at h
        exact Except.noConfusion h
      | ok recs =>
        rw [hpm] at h
        rw [← Except.ok.inj h]

/-! ## Claims -/

/-- Claim C1, counterexample: on a directory whose first substring match for
"ali" is an email-only entry (no phones), the lookup returns that entry's
empty phone list and stops, while the spec's scan (skip matches without
phones) would return the later entry's first phone — so the claim that an
empty-phones name match "does not win and does not stop the scan" is false
on the code. -/
theorem C1_counterexample :
    lookup_contact_numbers (.ok C1cm) C1cm "ali" = some [] ∧
    specSubstringScan C1cm (strLower "ali") = some ["+15551230000"] ∧
    lookup_contact_numbers (.ok C1cm) C1cm "ali" ≠
      specSubstringScan C1cm (strLower "ali") := by
  refine ⟨by decide, by decide, by decide⟩

/-- Claim C1, amended: for a contact string with no exact directory match,
substring resolution scans directory entries in stored order and returns the
phones list of the first entry whose display name contains the contact string
case-insensitively, regardless of whether that phone list is empty; an
empty-phones match wins, stops the scan and yields the empty list (which the
orchestrator then treats as unresolved, falling back to raw phone parsing
instead of continuing to later entries). -/
theorem C1_substring_first_match (file : DirectoryFile) (pre suf : ContactsMap)
    (name : String) (info : ContactInfo) (contact : String)
    (hnoexact : mapGet (pre ++ (name, info) :: suf) contact = none)
    (hpre : ∀ p ∈ pre, strContains (strLower p.1) (strLower contact) = false)
    (hmatch : strContains (strLower name) (strLower contact) = true) :
    lookup_contact_numbers file (pre ++ (name, info) :: suf) contact =
      some info.phones := by
  have hne : (pre ++ (name, info) :: suf).isEmpty = false := by
    cases pre <;> rfl
  unfold lookup_contact_numbers
  simp only [hne, Bool.false_eq_true, if_false, hnoexact]
  exact findSubstringMatch_first pre suf name info (strLower contact) hpre hmatch

/-- Witness for C1: a concrete two-entry directory in which the second entry
is the first substring match for "jane". -/
theorem C1_witness :
    lookup_contact_numbers .missing
      ([("Bob Stone", { phones := ["+15557654321"], emails := [] })] ++
        ("Jane Doe", { phones := ["+15551230000"], emails := [] }) :: [])
      "jane" = some ["+15551230000"] :=
  C1_substring_first_match .missing _ _ "Jane Doe"
    { phones := ["+15551230000"], emails := [] } "jane"
    (by decide) (by decide) (by decide)

/-- Claim C2, counterexample: with today = day 100 and both bounds omitted,
the effective window is [day 93, day 100], which contains 8 calendar days,
not 7 — the window is the 7 days before today plus today itself. -/
theorem C2_counterexample :
    parseWindow 100 none none = .ok (some 93, some 100) ∧
    (daysInWindow 93 100).length = 8 ∧
    ¬ (daysInWindow 93 100).length = 7 := by
  refine ⟨by decide, by decide, by decide⟩

/-- Claim C2, amended: when both `start_date` and `end_date` are omitted (or
empty), the effective window resolves to [today - 7 days, today] with both
bounds inclusive; that window contains exactly 8 calendar days (the 7 days
preceding today, plus today), ending today inclusive. -/
theorem C2_default_window (today : Nat) (sd ed : Option String)
    (h7 : 7 ≤ today) (hsd : strTruthy sd = false) (hed : strTruthy ed = false) :
    parseWindow today sd ed = .ok (some (today - 7), some today) ∧
    (daysInWindow (today - 7) today).length = 8 ∧
    (∀ d : Nat, d ∈ daysInWindow (today - 7) today ↔ today - 7 ≤ d ∧ d ≤ today) := by
  refine ⟨?_, ?_, ?_⟩
  · unfold parseWindow
    rw [hsd, hed]
    rfl
  · unfold daysInWindow
    rw [List.length_range']
    omega
  · intro d
    unfold daysInWindow
    rw [List.mem_range'_1]
    omega

/-- Witness for C2's amended theorem at today = day 100. -/
theorem C2_witness :
    parseWindow 100 none none = .ok (some 93, some 100) ∧
    (daysInWindow 93 100).length = 8 :=
  ⟨(C2_default_window 100 none none (by decide) rfl rfl).1,
   (C2_default_window 100 none none (by decide) rfl rfl).2.1⟩

/-- Claim C10: for the empty contact string with a non-empty loaded directory
(whose keys, per the exporter, are never the empty string), the lookup does
not fail: the empty string is a substring of every display name, so the
substring scan matches the first entry in iteration order and returns that
entry's phone list. -/
theorem C10_empty_contact (file : DirectoryFile) (name : String)
    (info : ContactInfo) (rest : ContactsMap)
    (hkey : ∀ p ∈ (name, info) :: rest, p.1 ≠ "") :
    lookup_contact_numbers file ((name, info) :: rest) "" = some info.phones ∧
    lookup_contact_numbers file ((name, info) :: rest) "" ≠ none := by
  have hlook : lookup_contact_numbers file ((name, info) :: rest) "" =
      some info.phones := by
    unfold lookup_contact_numbers
    have hne : ((name, info) :: rest).isEmpty = false := rfl
    simp only [hne, Bool.false_eq_true, if_false, mapGet_eq_none _ _ hkey]
    unfold findSubstringMatch
    rw [show strLower "" = "" from rfl, strContains_empty]
    rfl
  exact ⟨hlook, by rw [hlook]; exact fun he => Option.noConfusion he⟩

/-- Witness for C10 on the concrete one-entry directory. -/
theorem C10_witness :
    lookup_contact_numbers (.ok witnessContacts) witnessContacts "" =
      some ["+15551230000"] :=
  (C10_empty_contact (.ok witnessContacts) "Jane Doe"
    { phones := ["+15551230000"], emails := [] } [] (by decide)).1

/-- Claim C3: for every fetched message sequence (with parseable timestamps)
and every date window, the filter loop retains exactly the messages whose
day-truncated date is at least the start bound (when set) and at most the end
bound (when set), in their original relative order (the loop is a filter
followed by a map); both bounds are inclusive — a message dated exactly on
the start or end day is retained, one dated one day outside either bound is
excluded. -/
theorem C3_date_filter (win : Option Nat × Option Nat) (msgs : List RawMessage)
    (hparse : ∀ m ∈ msgs, (parseMsgDate m.date).isSome) :
    processMessages win msgs = .ok ((msgs.filter (keepMsg win)).map shapeMessage) ∧
    (∀ m : RawMessage, ∀ d : Nat, parseMsgDate m.date = some d →
      (keepMsg win m = true ↔
        ((∀ s, win.1 = some s → s ≤ d) ∧ (∀ e, win.2 = some e → d ≤ e)))) ∧
    (∀ s e : Nat, s ≤ e →
      dayKeep (some s, some e) s = true ∧
      dayKeep (some s, some e) e = true ∧
      (1 ≤ s → dayKeep (some s, some e) (s - 1) = false) ∧
      dayKeep (some s, some e) (e + 1) = false) := by
  refine ⟨processMessages_eq_filter_map win msgs hparse, ?_, ?_⟩
  · intro m d hd
    unfold keepMsg
    rw [hd]
    obtain ⟨w1, w2⟩ := win
    cases w1 <;> cases w2 <;> simp [dayKeep]
  · intro s e hse
    refine ⟨?_, ?_, fun h1 => ?_, ?_⟩ <;>
      simp only [dayKeep, Bool.and_eq_true, decide_eq_true_eq,
        Bool.and_eq_false_iff, decide_eq_false_iff_not] <;>
      omega

/-- Witness for C3: the loop on two concrete messages with a concrete window
equals the filter-then-shape of those messages. -/
theorem C3_witness :
    processMessages (some (rataDie 2024 1 4), some (rataDie 2024 1 6)) msgsW =
      .ok ((msgsW.filter
        (keepMsg (some (rataDie 2024 1 4), some (rataDie 2024 1 6)))).map
          shapeMessage) :=
  (C3_date_filter (some (rataDie 2024 1 4), some (rataDie 2024 1 6)) msgsW
    (by decide)).1

/-- Claim C4: shaping is total, one-to-one and order-preserving — the loop
produces exactly the shaped images of the retained messages in order; per
record, `text` is the message text or empty when absent, `date` is the
provider's timestamp string verbatim, `has_attachments` holds iff the
attachment sequence is non-empty, an attachment's `is_missing` defaults to
false when unreported; and every successful call returns `total_count` equal
to the length of its `messages` list. -/
theorem C4_shaping (win : Option Nat × Option Nat) (msgs : List RawMessage)
    (hparse : ∀ m ∈ msgs, (parseMsgDate m.date).isSome) :
    processMessages win msgs = .ok ((msgs.filter (keepMsg win)).map shapeMessage) ∧
    ((msgs.filter (keepMsg win)).map shapeMessage).length =
      (msgs.filter (keepMsg win)).length ∧
    (∀ m : RawMessage,
      (shapeMessage m).text = m.text.getD "" ∧
      (shapeMessage m).date = m.date ∧
      ((shapeMessage m).has_attachments = true ↔ m.attachments ≠ []) ∧
      (shapeMessage m).attachments = m.attachments.map shapeAttachment) ∧
    (∀ a : Attachment, (shapeAttachment a).is_missing = a.missing.getD false) ∧
    (∀ (env : Env) (contact : String) (sd ed : Option String)
        (res : TranscriptResult),
      get_chat_transcript env contact sd ed = .ok res →
      res.total_count = res.messages.length) := by
  refine ⟨processMessages_eq_filter_map win msgs hparse, List.length_map _ _,
    ?_, ?_, ?_⟩
  · intro m
    refine ⟨?_, rfl, ?_, ?_⟩
    · unfold shapeMessage
      cases ht : m.text with
      | none => rfl
      | some t =>
        by_cases h0 : t = ""
        · subst h0
          rfl
        · simp only [Option.getD]
          rw [if_neg (by simpa using h0)]
    · unfold shapeMessage
      cases m.attachments <;> simp
    · unfold shapeMessage
      cases m.attachments <;> rfl
  · intro a
    rfl
  · intro env contact sd ed res h
    obtain ⟨ns, phone, -, -, hres⟩ := get_chat_transcript_ok env contact sd ed res h
    exact afterFetch_ok env phone sd ed res hres

/-- Witness for C4: length preservation on the concrete messages. -/
theorem C4_witness :
    ((msgsW.filter (keepMsg (some 5, some 10))).map shapeMessage).length =
      (msgsW.filter (keepMsg (some 5, some 10))).length :=
  (C4_shaping (some 5, some 10) msgsW (by decide)).2.1

/-- Claim C5: when the contact matches no directory entry (neither exact nor
substring, i.e. the lookup returns `None`) and the raw-phone fallback fails
to parse or to validate, `get_chat_transcript` raises a contact-not-found
error carrying the original input string, and the result does not depend on
the message-history provider — the fetch stage is never reached. -/
theorem C5_contact_not_found (env : Env) (contact : String) (sd ed : Option String)
    (hlook : lookup_contact_numbers env.file env.contacts contact = none)
    (hfail : env.phone.parseUS contact = none ∨
      ∃ p, env.phone.parseUS contact = some p ∧ env.phone.isValidNumber p = false) :
    (get_chat_transcript env contact sd ed = .error (.contactNotFound contact) ∨
     get_chat_transcript env contact sd ed =
       .error (.contactNotFoundInvalidPhone contact)) ∧
    (∀ f : String → List RawMessage,
      get_chat_transcript { env with fetch := f } contact sd ed =
        get_chat_transcript env contact sd ed) := by
  have hraw : ∃ err, (err = QueryError.contactNotFound contact ∨
      err = QueryError.contactNotFoundInvalidPhone contact) ∧
      rawPhoneFallback env.phone contact = .error err := by
    rcases hfail with hnone | ⟨p, hp, hv⟩
    · refine ⟨_, Or.inl rfl, ?_⟩
      unfold rawPhoneFallback
      rw [hnone]
    · refine ⟨_, Or.inr rfl, ?_⟩
      unfold rawPhoneFallback
      simp only [hp]
      rw [if_neg (by rw [hv]; exact fun he => Bool.noConfusion he)]
  obtain ⟨err, herr, hraweq⟩ := hraw
  have main : ∀ f : String → List RawMessage,
      get_chat_transcript { env with fetch := f } contact sd ed = .error err := by
    intro f
    have hlook' : lookup_contact_numbers ({ env with fetch := f } : Env).file
        ({ env with fetch := f } : Env).contacts contact = none := hlook
    have hraweq' : rawPhoneFallback ({ env with fetch := f } : Env).phone contact =
        .error err := hraweq
    exact get_chat_transcript_of_resolve_error _ _ _ _ _
      ((resolveNumbers_of_lookup_none _ contact hlook').trans hraweq')
  have hmain : get_chat_transcript env contact sd ed = .error err := main env.fetch
  constructor
  · rcases herr with h1 | h1
    · exact Or.inl (h1 ▸ hmain)
    · exact Or.inr (h1 ▸ hmain)
  · intro f
    rw [main f, hmain]

/-- Witness for C5: "nobody" is in no directory and has no digits to parse. -/
theorem C5_witness :
    get_chat_transcript envNF "nobody" none none =
      .error (.contactNotFound "nobody") :=
  Or.resolve_right
    (C5_contact_not_found envNF "nobody" none none (by decide) (Or.inl (by decide))).1
    (by decide)

/-- Claim C6: when the contact resolves to a directory entry with a non-empty
phone list whose first phone parses and validates, the identifier handed to
the fetch stage is the E.164 canonicalization of that first phone; and in
every successful execution the fetch stage receives the E.164 format of some
parsed, validated number — never any other representation. -/
theorem C6_canonical_identifier (env : Env) (contact : String)
    (sd ed : Option String) :
    (∀ (ps : List String) (n : String),
      lookup_contact_numbers env.file env.contacts contact = some ps →
      ps.isEmpty = false →
      env.phone.parseUS (ps.headD "") = some n →
      env.phone.isValidNumber n = true →
      get_chat_transcript env contact sd ed =
        afterFetch env (env.phone.formatE164 n) sd ed) ∧
    (∀ res : TranscriptResult, get_chat_transcript env contact sd ed = .ok res →
      ∃ raw n, env.phone.parseUS raw = some n ∧ env.phone.isValidNumber n = true ∧
        afterFetch env (env.phone.formatE164 n) sd ed = .ok res) := by
  constructor
  · intro ps n hlook hne hp hv
    have hres : resolveNumbers env contact = .ok ps := by
      unfold resolveNumbers
      simp only [hlook, hne, Bool.false_eq_true, if_false]
    have hnorm : normalizePhone env.phone (ps.headD "") =
        .ok (env.phone.formatE164 n) := by
      unfold normalizePhone
      simp only [hp]
      rw [if_pos hv]
    unfold get_chat_transcript
    simp only [hres, hnorm]
  · intro res h
    obtain ⟨ns, phone, hres, hnorm, haf⟩ :=
      get_chat_transcript_ok env contact sd ed res h
    obtain ⟨n, hp, hv, hfmt⟩ := normalizePhone_ok env.phone _ _ hnorm
    exact ⟨ns.headD "", n, hp, hv, by rw [← hfmt]; exact haf⟩

/-- Witness for C6: "Jane Doe" resolves in the concrete directory, and the
call equals the tail pipeline applied to the canonicalized first phone. -/
theorem C6_witness :
    get_chat_transcript envW "Jane Doe" none none =
      afterFetch envW (toyPhoneLib.formatE164 "15551230000") none none :=
  (C6_canonical_identifier envW "Jane Doe" none none).1
    ["+15551230000"] "15551230000" (by decide) (by decide) (by decide) (by decide)

/-- Claim C7: a malformed (or unreadable) directory file is swallowed by
`load_contacts_map` — the in-memory map is left unchanged (empty) and no
error reaches the caller (the function is total) — and every subsequent call
degrades to phone-number-only resolution: the directory lookup returns no
match and the whole call equals the pipeline that starts at the raw-phone
fallback. -/
theorem C7_malformed_directory (env : Env) (contact : String)
    (sd ed : Option String)
    (hfile : env.file = .malformed) (hcm : env.contacts = []) :
    load_contacts_map .malformed [] = [] ∧
    lookup_contact_numbers env.file env.contacts contact = none ∧
    get_chat_transcript env contact sd ed = phoneOnlyTranscript env contact sd ed := by
  have hlook : lookup_contact_numbers env.file env.contacts contact = none := by
    rw [hfile, hcm]
    rfl
  refine ⟨rfl, hlook, ?_⟩
  unfold get_chat_transcript phoneOnlyTranscript
  rw [resolveNumbers_of_lookup_none env contact hlook]

/-- Witness for C7 in the concrete malformed-directory environment. -/
theorem C7_witness :
    load_contacts_map .malformed [] = [] ∧
    lookup_contact_numbers envM.file envM.contacts "nobody" = none ∧
    get_chat_transcript envM "nobody" none none =
      phoneOnlyTranscript envM "nobody" none none :=
  C7_malformed_directory envM "nobody" none none rfl rfl

/-- Claim C8: when the contact resolves and normalizes but the message store
path — the `SQLITE_DB_PATH` override when present, else the fixed default
under the home directory — does not exist, the call fails with a
store-unavailable error naming the resolved path, and it does so for every
message-history provider, i.e. before any fetch is attempted. -/
theorem C8_store_unavailable (env : Env) (contact : String) (sd ed : Option String)
    (ns : List String) (phone : String)
    (hres : resolveNumbers env contact = .ok ns)
    (hnorm : normalizePhone env.phone (ns.headD "") = .ok phone)
    (hdb : env.dbExists = false) :
    get_chat_transcript env contact sd ed =
      .error (.storeUnavailable (DB_PATH env)) ∧
    DB_PATH env = (match env.sqliteDbPathEnv with
                   | some p => p
                   | none => env.homeDir ++ "/Library/Messages/chat.db") ∧
    (∀ f : String → List RawMessage,
      get_chat_transcript { env with fetch := f } contact sd ed =
        .error (.storeUnavailable (DB_PATH env))) := by
  have main : ∀ f : String → List RawMessage,
      get_chat_transcript { env with fetch := f } contact sd ed =
        .error (.storeUnavailable (DB_PATH env)) := by
    intro f
    have hres' : resolveNumbers { env with fetch := f } contact = .ok ns := hres
    have hnorm' : normalizePhone ({ env with fetch := f } : Env).phone
        (ns.headD "") = .ok phone := hnorm
    have hdb' : ({ env with fetch := f } : Env).dbExists = false := hdb
    unfold get_chat_transcript
    simp only [hres', hnorm']
    unfold afterFetch
    rw [hdb']
    rfl
  exact ⟨main env.fetch, rfl, main⟩

/-- Witness for C8 in the concrete store-less environment. -/
theorem C8_witness :
    get_chat_transcript envDB "Jane Doe" none none =
      .error (.storeUnavailable (DB_PATH envDB)) :=
  (C8_store_unavailable envDB "Jane Doe" none none ["+15551230000"]
    "+15551230000" (by decide) (by decide) rfl).1

/-- Claim C9: on the raw-phone fallback path (no usable directory entry, the
contact string itself parses to a valid number), given the phone library's
round-trip contract on that number — re-parsing its E.164 form succeeds,
stays valid, and re-formats to the same string — the orchestrator's
re-normalization of the already-canonical string succeeds and returns the
same string, so the raw-input path delivers the same canonical key shape
`formatE164` to the fetch stage as the directory path. -/
theorem C9_idempotent_normalization (env : Env) (contact : String)
    (sd ed : Option String) (n n2 : String)
    (hlook : lookup_contact_numbers env.file env.contacts contact = none ∨
      lookup_contact_numbers env.file env.contacts contact = some [])
    (hparse : env.phone.parseUS contact = some n)
    (hvalid : env.phone.isValidNumber n = true)
    (hreparse : env.phone.parseUS (env.phone.formatE164 n) = some n2)
    (hrevalid : env.phone.isValidNumber n2 = true)
    (hrefmt : env.phone.formatE164 n2 = env.phone.formatE164 n) :
    normalizePhone env.phone (env.phone.formatE164 n) =
      .ok (env.phone.formatE164 n) ∧
    get_chat_transcript env contact sd ed =
      afterFetch env (env.phone.formatE164 n) sd ed := by
  have hnorm : normalizePhone env.phone (env.phone.formatE164 n) =
      .ok (env.phone.formatE164 n) := by
    unfold normalizePhone
    simp only [hreparse]
    rw [if_pos hrevalid, hrefmt]
  have hraw : rawPhoneFallback env.phone contact =
      .ok [env.phone.formatE164 n] := by
    unfold rawPhoneFallback
    simp only [hparse]
    rw [if_pos hvalid]
  have hres : resolveNumbers env contact = .ok [env.phone.formatE164 n] := by
    unfold resolveNumbers
    rcases hlook with h | h
    · rw [h]
      exact hraw
    · simp only [h]
      exact hraw
  refine ⟨hnorm, ?_⟩
  unfold get_chat_transcript
  simp only [hres, List.headD_cons, hnorm]

/-- Witness for C9: the toy library round-trips on "+1 555-999-8888". -/
theorem C9_witness :
    normalizePhone toyPhoneLib (toyPhoneLib.formatE164 "15559998888") =
      .ok (toyPhoneLib.formatE164 "15559998888") :=
  (C9_idempotent_normalization envNF "+1 555-999-8888" none none
    "15559998888" "15559998888" (Or.inl (by decide)) (by decide) (by decide)
    (by decide) (by decide) (by decide)).1

end IMessageQuery
